import Mathlib

/-!
# Verification of the cpp-init example projects

Shallow embedding of the three tiny example projects of the repository
(`example`, `example2`, `example3`): a greeting function `hello`, a logging
callback slot, a platform CPU-count accessor, and the example applications'
`main` functions.

Conventions of the embedding:
* C++ functions become Lean functions; the mutable global logger slot
  (`Example::onLog` resp. `Example::g_logger`) is passed explicitly as an
  `Option` value (`none` models the null pointer).
* A log handler is modelled by the text it emits to its sink: one list element
  per emitted line, without the terminating newline.
* Side effects of a call are returned as explicit traces: the list of handler
  invocations performed and the list of output lines produced.
* `__LINE__` values (C++ `long`) are modelled as `Nat`: source line numbers
  are non-negative and no arithmetic is performed on them.
-/

namespace CppInit

/-- One invocation of the example3 log callback `Example::onLog`: the argument
triple `(message, file, line)` the caller passes to the installed handler. -/
structure LogCall where
  message : String
  file : String
  line : Nat
deriving DecidableEq, Repr

/-- `Example::OnLog = void(*)(std::string_view message, std::string_view file,
long line)` (example3 `example_logger.hpp`). A handler is modelled by the
lines of text it emits to its sink when invoked. -/
def OnLog : Type := String → String → Nat → List String

/-- example3 `example_logger.cpp`: `OnLog onLog;` — the global callback is
zero-initialised, i.e. the null function pointer: no handler installed. -/
def onLogInitial : Option OnLog := none

/-- The `EXAMPLE_LOG` macro (example3 `example_logger.hpp`):
`do { if (::Example::onLog) { ::Example::onLog(::fmt::format(__VA_ARGS__), __FILE__, __LINE__); } } while (0)`.
Given the current value of the `onLog` slot and the already-formatted message
with its source location, it returns the trace of handler invocations
performed and the output the handler produced. If the slot is null it does
nothing: no invocation, no output. -/
def EXAMPLE_LOG (onLog : Option OnLog) (message file : String) (line : Nat) :
    List LogCall × List String :=
  match onLog with
  | none => ([], [])
  | some handler => ([⟨message, file, line⟩], handler message file line)

/-- example3 `Example::logToStdout`:
`fmt::println("[{}:{}] {}", file, line, message);` — one line printed to
standard output per message. -/
def logToStdout : OnLog := fun message file line =>
  ["[" ++ file ++ ":" ++ toString line ++ "] " ++ message]

/-- The file-sink lambda installed by example3 `example_app.cpp` main:
`g_logFile << fmt::format("[{}:{}] Example: {}\n", file, line, message);` —
one line appended to the log file per message. -/
def appFileSink : OnLog := fun message file line =>
  ["[" ++ file ++ ":" ++ toString line ++ "] Example: " ++ message]

/-- Modelled from the spec: the log-line layout the specification states for
emitted log output, "one line per message formatted as `[file:line] message`".
Used only to compare the source-derived sinks against the spec's words. -/
def specFormattedLine (file : String) (line : Nat) (message : String) : String :=
  "[" ++ file ++ ":" ++ toString line ++ "] " ++ message

/-- `ILogger` of example2 (`example_logger.hpp`) has a single member
`virtual void log(std::string_view)`. A logger instance is modelled by the
lines its `log` member emits to its sink. -/
def ILoggerFn : Type := String → List String

/-- example2 `example_logger.hpp`: `inline std::unique_ptr<ILogger> g_logger;`
— default-constructed unique_ptr, i.e. null: no logger installed. -/
def g_loggerInitial : Option ILoggerFn := none

/-- example2 `FileLogger::log`: `m_file << message << "\n";` — appends the
message as one line to the logger's file. -/
def FileLogger.logFn : ILoggerFn := fun message => [message]

/-- example2 `ConsoleLogger::log`: `std::cout << message << "\n";` — prints
the message as one line to standard output. -/
def ConsoleLogger.logFn : ILoggerFn := fun message => [message]

namespace Example1

/-- `Example::hello` of the first example project (no logging):
returns "Hello!" for the empty name and `"Hello " + name + "!"` otherwise. -/
def hello (name : String) : String :=
  if name.isEmpty then "Hello!"
  else "Hello " ++ name ++ "!"

end Example1

namespace Example3

/-- Source location of the `EXAMPLE_LOG("Example::hello called")` statement
inside example3 `Example::hello` (`example_hello.cpp`, line 9): the values the
`__FILE__` / `__LINE__` macro arguments expand to. -/
def helloLogFile : String := "example_hello.cpp"

/-- Line number of the `EXAMPLE_LOG` statement in example3 `Example::hello`. -/
def helloLogLine : Nat := 9

/-- example3 `Example::hello`: logs "Example::hello called" through
`EXAMPLE_LOG`, then returns "Hello!" for the empty name and
`"Hello " + name + "!"` otherwise. The result carries the greeting together
with the log trace (handler invocations, handler output). -/
def hello (onLog : Option OnLog) (name : String) :
    String × List LogCall × List String :=
  let logged := EXAMPLE_LOG onLog "Example::hello called" helloLogFile helloLogLine
  if name.isEmpty then ("Hello!", logged)
  else ("Hello " ++ name ++ "!", logged)

end Example3

namespace Example2

/-- example2 `Example::hello`: `if (g_logger) { g_logger->log("Example::hello called"); }`,
then returns "Hello!" for the empty name and `"Hello " + name + "!"` otherwise.
The result carries the greeting together with the log trace: the messages
delivered to the logger's `log` member, and the output the logger produced. -/
def hello (g_logger : Option ILoggerFn) (name : String) :
    String × List String × List String :=
  let logged : List String × List String :=
    match g_logger with
    | none => ([], [])
    | some logger => (["Example::hello called"], logger "Example::hello called")
  if name.isEmpty then ("Hello!", logged)
  else ("Hello " ++ name ++ "!", logged)

end Example2

namespace Platform

/-- example3 `example_platform.hpp`: `extern int (*cpuCount)();` — the platform
CPU-count accessor is a swappable, possibly-null function pointer. `none`
models the null pointer. -/
def State : Type := Option (Unit → Int)

/-- example3 `example_platform.test.hpp` `Example::Platform::initMock`:
`cpuCount = +[] { return 512; };` — re-initialises the platform function with
a mock implementation for testing. -/
def initMock (_ : State) : State := some (fun _ => 512)

/-- Calling `Example::Platform::cpuCount()`: dereference the stored function
pointer and invoke it (`none` when the pointer is null and the call would be
undefined behaviour). -/
def callCpuCount (st : State) : Option Int := st.map (fun f => f ())

end Platform

/-- Observable outcome of one run of an example application's `main`:
the process exit code, the texts printed to standard output (one element per
output statement, without the terminating newline), and the lines appended to
the log file. -/
structure AppResult where
  exitCode : Nat
  stdout : List String
  logFile : List String
deriving Repr

/-- The usage message both example apps print on a wrong argument count:
`fmt::println("usage: {} <name>\n", argv[0])` (example3) resp.
`fmt::print("usage: {} <name>\n\n", argv[0])` (example2); the text of the
statement without the terminating newline is the same. -/
def usageMessage (progName : String) : String :=
  "usage: " ++ progName ++ " <name>\n"

namespace Example3

/-- example3 `example_app.cpp` main. `progName` is `argv[0]`, `args` the
positional arguments (`argc = 1 + args.length`), `logFileOk` whether
`std::ofstream("logfile.txt")` produced a usable stream, and `cpuCount` the
value of the platform CPU query (platform specific, so a parameter).
Steps, in source order: open the log file (print "Could not create log file"
and exit 1 on failure); install the file-sink handler into `onLog`; on
`argc != 2` print the usage message and exit 1; otherwise print the greeting
`hello(argv[1])` and the CPU-count line and exit 0. -/
def mainFn (progName : String) (args : List String) (logFileOk : Bool)
    (cpuCount : Int) : AppResult :=
  if !logFileOk then
    ⟨1, ["Could not create log file"], []⟩
  else
    if args.length ≠ 1 then
      ⟨1, [usageMessage progName], []⟩
    else
      let r := hello (some appFileSink) (args.headD "")
      ⟨0, [r.1, "We are running on " ++ toString cpuCount ++ " CPUs."], r.2.2⟩

end Example3

namespace Example2

/-- example2 `example_app.cpp` main, analogous to the example3 one:
on a failed `FileLogger::create("logfile.txt")` print
"Could not create log file: logfile.txt" and exit 1; install the file logger
into `g_logger`; on `argc != 2` print the usage message and exit 1; otherwise
print the greeting and the CPU-count line and exit 0. -/
def mainFn (progName : String) (args : List String) (logFileOk : Bool)
    (cpuCount : Int) : AppResult :=
  if !logFileOk then
    ⟨1, ["Could not create log file: logfile.txt"], []⟩
  else
    if args.length ≠ 1 then
      ⟨1, [usageMessage progName], []⟩
    else
      let r := hello (some FileLogger.logFn) (args.headD "")
      ⟨0, [r.1, "We are running on " ++ toString cpuCount ++ " CPUs."], r.2.2⟩

end Example2

/-! ## Helper lemmas -/

/-- The greeting component of example3 `hello` coincides with the pure
example1 `hello`, whatever the logger state. -/
theorem hello3_fst (st : Option OnLog) (name : String) :
    (Example3.hello st name).1 = Example1.hello name := by
  unfold Example3.hello Example1.hello
  by_cases h : name.isEmpty <;> simp [h]

/-- The greeting component of example2 `hello` coincides with the pure
example1 `hello`, whatever the logger state. -/
theorem hello2_fst (st : Option ILoggerFn) (name : String) :
    (Example2.hello st name).1 = Example1.hello name := by
  unfold Example2.hello Example1.hello
  by_cases h : name.isEmpty <;> simp [h]

/-- The log trace of example3 `hello` is exactly the one `EXAMPLE_LOG`
produces for the message "Example::hello called". -/
theorem hello3_snd (st : Option OnLog) (name : String) :
    (Example3.hello st name).2 =
      EXAMPLE_LOG st "Example::hello called"
        Example3.helloLogFile Example3.helloLogLine := by
  unfold Example3.hello
  by_cases h : name.isEmpty <;> simp [h]

/-- On a non-empty name, example1 `hello` takes the non-empty branch. -/
theorem hello1_of_ne (name : String) (h : name ≠ "") :
    Example1.hello name = "Hello " ++ name ++ "!" := by
  unfold Example1.hello
  have he : name.isEmpty = false := by
    rcases hb : name.isEmpty with _ | _
    · rfl
    · exact absurd ((String.isEmpty_iff name).mp hb) h
  simp [he]

/-- The log trace of example2 `hello` with an installed logger: the logger's
`log` member receives exactly the message "Example::hello called". -/
theorem hello2_snd_some (lg : ILoggerFn) (name : String) :
    (Example2.hello (some lg) name).2 =
      (["Example::hello called"], lg "Example::hello called") := by
  unfold Example2.hello
  by_cases h : name.isEmpty <;> simp [h]

/-- String concatenation is associative. -/
theorem strAppend_assoc (a b c : String) : a ++ b ++ c = a ++ (b ++ c) :=
  String.ext (by simp [String.data_append])

/-! ## Claim theorems -/

/-- C1, counterexample: the greeting has no comma. At the concrete non-empty
name "Tim" the code (example3 `hello`, with the default null logger) returns
"Hello Tim!", which differs from the "Hello, Tim!" the claim states. -/
theorem hello_comma_claim_counterexample :
    (Example3.hello onLogInitial "Tim").1 = "Hello Tim!" ∧
    (Example3.hello onLogInitial "Tim").1 ≠ "Hello, Tim!" := by
  constructor <;> decide

/-- C1, amended: for every non-empty name `n`, `hello n` returns
`"Hello " ++ n ++ "!"` — "Hello" followed by a space (no comma), the name and
"!" — in all three example projects, whatever the logger state; `hello` is
total, so it returns a greeting for every input. -/
theorem hello_greeting_no_comma (name : String) (st : Option OnLog)
    (lg : Option ILoggerFn) (h : name ≠ "") :
    Example1.hello name = "Hello " ++ name ++ "!" ∧
    (Example3.hello st name).1 = "Hello " ++ name ++ "!" ∧
    (Example2.hello lg name).1 = "Hello " ++ name ++ "!" := by
  refine ⟨hello1_of_ne name h, ?_, ?_⟩
  · rw [hello3_fst]; exact hello1_of_ne name h
  · rw [hello2_fst]; exact hello1_of_ne name h

/-- C1, witness: the amended claim at the concrete name "Tim" with no logger
installed. -/
theorem hello_greeting_no_comma_witness :
    ("Tim" : String) ≠ "" ∧
    (Example1.hello "Tim" = "Hello " ++ "Tim" ++ "!" ∧
     (Example3.hello onLogInitial "Tim").1 = "Hello " ++ "Tim" ++ "!" ∧
     (Example2.hello g_loggerInitial "Tim").1 = "Hello " ++ "Tim" ++ "!") :=
  ⟨by decide, hello_greeting_no_comma "Tim" onLogInitial g_loggerInitial (by decide)⟩

/-- C2: the greeting for the non-empty name "Tim" is exactly "Hello Tim!", in
all three example projects and whatever the logger state. -/
theorem hello_Tim (st : Option OnLog) (lg : Option ILoggerFn) :
    Example1.hello "Tim" = "Hello Tim!" ∧
    (Example3.hello st "Tim").1 = "Hello Tim!" ∧
    (Example2.hello lg "Tim").1 = "Hello Tim!" := by
  refine ⟨by decide, ?_, ?_⟩
  · rw [hello3_fst]; decide
  · rw [hello2_fst]; decide

/-- C3: the greeting for the empty name is exactly "Hello!", in all three
example projects and whatever the logger state. -/
theorem hello_empty (st : Option OnLog) (lg : Option ILoggerFn) :
    Example1.hello "" = "Hello!" ∧
    (Example3.hello st "").1 = "Hello!" ∧
    (Example2.hello lg "").1 = "Hello!" := by
  refine ⟨by decide, ?_, ?_⟩
  · rw [hello3_fst]; decide
  · rw [hello2_fst]; decide

/-- C4: the global log callback slot is null by default; a log emission
through `EXAMPLE_LOG` with no handler installed performs no handler invocation
and produces no output, and with a handler installed it invokes exactly that
handler once with the formatted message and its source location. -/
theorem onLog_default_and_guard (m f : String) (l : Nat) (h : OnLog) :
    onLogInitial = none ∧
    EXAMPLE_LOG none m f l = ([], []) ∧
    EXAMPLE_LOG (some h) m f l = ([⟨m, f, l⟩], h m f l) :=
  ⟨rfl, rfl, rfl⟩

/-- C5: for every name, calling `hello` with a handler installed invokes the
handler at least once with a non-empty message — in example3 (function-pointer
logger) and in example2 (ILogger instance) alike. -/
theorem hello_logs_nonempty_message (h : OnLog) (lg : ILoggerFn) (name : String) :
    (∃ c ∈ (Example3.hello (some h) name).2.1, c.message ≠ "") ∧
    (∃ m ∈ (Example2.hello (some lg) name).2.1, m ≠ "") := by
  constructor
  · refine ⟨⟨"Example::hello called", Example3.helloLogFile, Example3.helloLogLine⟩, ?_, by decide⟩
    rw [hello3_snd]
    simp [EXAMPLE_LOG]
  · refine ⟨"Example::hello called", ?_, by decide⟩
    rw [show (Example2.hello (some lg) name).2.1 = ["Example::hello called"] from
      congrArg Prod.fst (hello2_snd_some lg name)]
    simp

/-- C6: after `Platform::initMock` installs the mock CPU-count function, the
CPU-count query returns exactly 512, whatever the previous platform state. -/
theorem initMock_cpuCount (st : Platform.State) :
    Platform.callCpuCount (Platform.initMock st) = some 512 := rfl

/-- C7, counterexample: the file-sink lambda of example3's main does not emit
lines of the spec's `[file:line] message` shape: at a concrete call it inserts
an extra "Example: " between the bracket and the message. -/
theorem log_line_format_counterexample :
    appFileSink "Example::hello called" "example_hello.cpp" 9 =
      ["[example_hello.cpp:9] Example: Example::hello called"] ∧
    appFileSink "Example::hello called" "example_hello.cpp" 9 ≠
      [specFormattedLine "example_hello.cpp" 9 "Example::hello called"] := by
  constructor <;> decide

/-- C7, amended: each emitted log line carries the `[file:line] ` location
prefix; the stdout sink (`logToStdout`) emits exactly `[file:line] message`,
while the log-file sink of example3's main emits `[file:line] Example: message`
— the message preceded by an extra "Example: " marker. -/
theorem log_line_formats (m f : String) (l : Nat) :
    logToStdout m f l = [specFormattedLine f l m] ∧
    appFileSink m f l = [specFormattedLine f l ("Example: " ++ m)] := by
  refine ⟨rfl, ?_⟩
  unfold appFileSink specFormattedLine
  rw [show ("] Example: " : String) = "] " ++ "Example: " from by decide]
  simp only [← strAppend_assoc]

/-- C8: the example applications exit with status 0 exactly when the log file
was created and exactly one positional name argument was given, and with
status 1 otherwise (usage error or log-file-creation error) — in example3 and
example2 alike. -/
theorem main_exit_codes (prog : String) (args : List String) (ok : Bool)
    (cpu : Int) :
    (Example3.mainFn prog args ok cpu).exitCode
        = (if ok = true ∧ args.length = 1 then 0 else 1) ∧
    (Example2.mainFn prog args ok cpu).exitCode
        = (if ok = true ∧ args.length = 1 then 0 else 1) := by
  cases ok <;> by_cases h : args.length = 1 <;>
    simp [Example3.mainFn, Example2.mainFn, h]

/-- C9, counterexample: on a failed log-file creation the program does not
print the usage message: at a concrete run it prints the error text
"Could not create log file", which differs from the usage message, and exits 1. -/
theorem logfile_failure_counterexample :
    (Example3.mainFn "app" ["Tim"] false 4).stdout = ["Could not create log file"] ∧
    ("Could not create log file" : String) ≠ usageMessage "app" ∧
    (Example3.mainFn "app" ["Tim"] false 4).exitCode = 1 := by
  refine ⟨rfl, by decide, rfl⟩

/-- C9, amended: when the log file cannot be created, the program prints an
error message ("Could not create log file", resp. with the file name appended
in example2) — not the usage message — and returns the nonzero exit code 1. -/
theorem logfile_failure_handling (prog : String) (args : List String) (cpu : Int) :
    (Example3.mainFn prog args false cpu).exitCode = 1 ∧
    (Example3.mainFn prog args false cpu).stdout = ["Could not create log file"] ∧
    (Example2.mainFn prog args false cpu).exitCode = 1 ∧
    (Example2.mainFn prog args false cpu).stdout
        = ["Could not create log file: logfile.txt"] :=
  ⟨rfl, rfl, rfl, rfl⟩

/-- C10: the greeting `hello` returns is independent of the logging state —
any two logger states (null, or any two handlers) yield the identical greeting
string, which moreover equals the pure example1 greeting. -/
theorem hello_noninterference (name : String) (st st' : Option OnLog)
    (lg lg' : Option ILoggerFn) :
    (Example3.hello st name).1 = (Example3.hello st' name).1 ∧
    (Example2.hello lg name).1 = (Example2.hello lg' name).1 ∧
    (Example3.hello st name).1 = Example1.hello name := by
  refine ⟨?_, ?_, hello3_fst st name⟩
  · rw [hello3_fst, hello3_fst]
  · rw [hello2_fst, hello2_fst]

end CppInit
